import Mathlib

/-!
# uptrace-go examples: `example/metrics/main.go` and `example/go-redis/client.go`

A shallow embedding of the two example programs.

* Go `int64` values are integers kept in range by `wrapInt64` (two's complement,
  64 bits); `time.Duration` is an `int64` count of nanoseconds.
* `float64` samples returned by `math/rand` are finite, so they are embedded as
  the rationals they denote; comparisons of finite floats are exact.
* Values the program reads from its surroundings (the number of goroutines, the
  process environment, the results of SDK and redis calls) are inputs of the
  definitions. The body of a loop iteration takes the sample it drew as input.
* The generator of `math/rand` is process-wide state shared by the loops and by
  the callback of `gaugeObserver`; `World` holds it next to the captured
  variables, and `Rand.Float64` advances it.
-/

namespace Uptrace

/-! ## Machine integers and `time.Duration` -/

/-- Two's-complement reduction of an integer to the `int64` range. -/
def wrapInt64 (x : Int) : Int := (x + 2 ^ 63) % 2 ^ 64 - 2 ^ 63

/-- Go `a + b` on `int64`. -/
def addInt64 (a b : Int) : Int := wrapInt64 (a + b)

/-- Go `a * b` on `int64`. -/
def mulInt64 (a b : Int) : Int := wrapInt64 (a * b)

/-- Go `a / b` on `int64`: the quotient truncated toward zero. -/
def divInt64 (a b : Int) : Int := wrapInt64 (Int.tdiv a b)

/-- Go `time.Microsecond`: a `Duration` of 1000 nanoseconds. -/
def Microsecond : Int := 1000

/-- Go `Duration.Microseconds`: `int64(d) / 1e3`. -/
def Microseconds (d : Int) : Int := divInt64 d 1000

/-- The `float64` nearest to the decimal constant `0.3`, as the rational it denotes. -/
def float64_0_3 : ℚ := 5404319552844595 / 18014398509481984

/-- The `float64` constant `0.5`. -/
def float64_0_5 : ℚ := 1 / 2

/-! ## Measurements -/

/-- A value handed to the SDK: instrument name, value and attributes. -/
inductive Measurement where
  | int64 (name : String) (value : Int) (attrs : List (String × String))
  | float64 (name : String) (value : ℚ)
  deriving DecidableEq

/-- The `int64` values a list of measurements carries for the instrument `name`. -/
def int64Values (name : String) : List Measurement → List Int
  | [] => []
  | Measurement.int64 n v _ :: rest =>
      if n = name then v :: int64Values name rest else int64Values name rest
  | Measurement.float64 _ _ :: rest => int64Values name rest

/-! ## Synchronous emitters: one loop iteration each -/

/-- One iteration of `counter`: `counter.Add(ctx, 1)`. -/
def counterIter : List Measurement :=
  [Measurement.int64 "some.prefix.counter" 1 []]

/-- One iteration of `upDownCounter`; `sample` is `rand.Float64()`. -/
def upDownCounterIter (sample : ℚ) : List Measurement :=
  if sample ≥ float64_0_5 then
    [Measurement.int64 "some.prefix.up_down_counter" 1 []]
  else
    [Measurement.int64 "some.prefix.up_down_counter" (-1) []]

/-- The duration computed by `histogram`: `time.Duration(x) * time.Microsecond`, where
`t` is the `int64` obtained from converting `rand.NormFloat64()*5000000`. -/
def histogramDur (t : Int) : Int := mulInt64 t Microsecond

/-- One iteration of `histogram`: `durRecorder.Record(ctx, dur.Microseconds())`. -/
def histogramIter (t : Int) : List Measurement :=
  [Measurement.int64 "some.prefix.histogram" (Microseconds (histogramDur t)) []]

/-- One iteration of `counterWithLabels`; `sample` is `rand.Float64()`. -/
def counterWithLabelsIter (sample : ℚ) : List Measurement :=
  if sample < float64_0_3 then
    [Measurement.int64 "some.prefix.cache" 1 [("type", "hits")]]
  else
    [Measurement.int64 "some.prefix.cache" 1 [("type", "misses")]]

/-! ## State read and written by the observers -/

/-- The variables captured by the observer callbacks: `number` of `counterObserver`
and `stats` of `counterObserverAdvanced`. -/
structure ProgState where
  number : Int
  Hits : Int
  Misses : Int
  deriving DecidableEq

/-- All variables are zero-initialised (`var number int64`, `var stats struct`). -/
def ProgState.init : ProgState := ⟨0, 0, 0⟩

/-- Callback of `counterObserver`: `number++; counter.Observe(ctx, number)`. -/
def counterObserverCallback (s : ProgState) : ProgState × List Measurement :=
  let number := addInt64 s.number 1
  ({ s with number := number },
   [Measurement.int64 "some.prefix.counter_observer" number []])

/-- Callback of `upDownCounterObserver`; `num` is `runtime.NumGoroutine()`. -/
def upDownCounterObserverCallback (num : Int) (s : ProgState) :
    ProgState × List Measurement :=
  (s, [Measurement.int64 "some.prefix.up_down_counter" (wrapInt64 num) []])

/-- The process-wide generator of `math/rand`: the samples it returns, in order,
and the number of draws made so far by any task or callback. -/
structure Rand where
  samples : Nat → ℚ
  drawn : Nat

/-- Go `rand.Float64()`: the next sample and the generator advanced by one draw. -/
def Rand.Float64 (r : Rand) : ℚ × Rand :=
  (r.samples r.drawn, ⟨r.samples, r.drawn + 1⟩)

/-- Everything a callback can read or write: the captured variables and the
generator of `math/rand`. -/
structure World where
  vars : ProgState
  rand : Rand

/-- A callback that touches the captured variables only, run in the whole state. -/
def World.onVars (f : ProgState → ProgState × List Measurement) (w : World) :
    World × List Measurement :=
  let r := f w.vars
  (⟨r.1, w.rand⟩, r.2)

/-- Callback of `gaugeObserver`: `gauge.Observe(ctx, rand.Float64())`. -/
def gaugeObserverCallback (w : World) : World × List Measurement :=
  let r := w.rand.Float64
  (⟨w.vars, r.2⟩, [Measurement.float64 "some.prefix.gauge_observer" r.1])

/-- First statement of the callback of `counterObserverAdvanced`:
`hitsCounter.Observe(ctx, atomic.LoadInt64(&stats.Hits))`. -/
def observeHits (s : ProgState) : ProgState × List Measurement :=
  (s, [Measurement.int64 "some.prefix.cache_hits" s.Hits []])

/-- Second statement of the callback of `counterObserverAdvanced`:
`missesCounter.Observe(ctx, atomic.LoadInt64(&stats.Misses))`. -/
def observeMisses (s : ProgState) : ProgState × List Measurement :=
  (s, [Measurement.int64 "some.prefix.cache_misses" s.Misses []])

/-- Callback of `counterObserverAdvanced`, run without interruption. -/
def counterObserverAdvancedCallback (s : ProgState) : ProgState × List Measurement :=
  let r1 := observeHits s
  let r2 := observeMisses r1.1
  (r2.1, r1.2 ++ r2.2)

/-- One iteration of the loop of `counterObserverAdvanced`; `sample` is
`rand.Float64()`. -/
def counterObserverAdvancedIter (sample : ℚ) (s : ProgState) : ProgState :=
  if sample < float64_0_3 then
    { s with Misses := addInt64 s.Misses 1 }
  else
    { s with Hits := addInt64 s.Hits 1 }

/-- One iteration of the loop of `counterObserverAdvanced` in the whole state: it
draws its sample with `rand.Float64()`. -/
def counterObserverAdvancedLoop (w : World) : World :=
  let r := w.rand.Float64
  ⟨counterObserverAdvancedIter r.1 w.vars, r.2⟩

/-- A start state: all variables zero, a generator whose first sample is `1/10`
and whose later samples are `1/2`. -/
def World.start : World :=
  ⟨ProgState.init, ⟨fun i => if i = 0 then 1 / 10 else 1 / 2, 0⟩⟩

/-- The first `n` invocations of the callback of `counterObserver`, from the
initial state: the state reached and everything reported, oldest first. -/
def counterObserverRun : Nat → ProgState × List Measurement
  | 0 => (ProgState.init, [])
  | n + 1 =>
      let r := counterObserverRun n
      let c := counterObserverCallback r.1
      (c.1, r.2 ++ c.2)

/-- An atomic step of `counterObserverAdvanced` and its callback. -/
inductive Step where
  | iter (sample : ℚ)
  | loadHits
  | loadMisses
  deriving DecidableEq

/-- Effect of one atomic step. -/
def Step.run : Step → ProgState → ProgState × List Measurement
  | Step.iter sample, s => (counterObserverAdvancedIter sample s, [])
  | Step.loadHits, s => observeHits s
  | Step.loadMisses, s => observeMisses s

/-- Run an interleaving (a list of atomic steps) and collect what was reported. -/
def runSchedule : List Step → ProgState → ProgState × List Measurement
  | [], s => (s, [])
  | st :: rest, s =>
      let r := st.run s
      let r2 := runSchedule rest r.1
      (r2.1, r.2 ++ r2.2)

/-- The random samples drawn by the loop iterations of an interleaving. -/
def samplesOf : List Step → List ℚ
  | [] => []
  | Step.iter sample :: rest => sample :: samplesOf rest
  | _ :: rest => samplesOf rest

/-- Number of samples that take the `Misses` branch. -/
def missCount (samples : List ℚ) : Nat :=
  (samples.filter (fun x => decide (x < float64_0_3))).length

/-- Number of samples that take the `Hits` branch. -/
def hitCount (samples : List ℚ) : Nat :=
  (samples.filter (fun x => decide (¬ x < float64_0_3))).length

/-! ## The meter and the start-up of the eight tasks -/

/-- The instrument constructors of the metric API used by the example. -/
inductive Kind where
  | syncInt64Counter
  | syncInt64UpDownCounter
  | syncInt64Histogram
  | asyncInt64Counter
  | asyncInt64UpDownCounter
  | asyncFloat64Gauge
  deriving DecidableEq

/-- A meter: instrument creation returns a handle or an error, callback
registration returns an error or nil; `μ` is the meter's own state. -/
structure Meter (μ H ε : Type) where
  create : Kind → String → String → String → μ → Except ε H × μ
  RegisterCallback : List (Option H) → μ → Option ε × μ

/-- A call received by a meter. -/
inductive MeterCall (H : Type) where
  | create (kind : Kind) (name : String) (unit : String) (description : String)
  | registerCallback (insts : List (Option H))

/-- The same meter, also logging every call it receives. -/
def Meter.recording {μ H ε : Type} (m : Meter μ H ε) :
    Meter (μ × List (MeterCall H)) H ε where
  create := fun kind name unit description st =>
    let r := m.create kind name unit description st.1
    (r.1, (r.2, st.2 ++ [MeterCall.create kind name unit description]))
  RegisterCallback := fun insts st =>
    let r := m.RegisterCallback insts st.1
    (r.1, (r.2, st.2 ++ [MeterCall.registerCallback insts]))

/-- The instrument names of the creation calls in a log. -/
def createdNames {H : Type} : List (MeterCall H) → List String
  | [] => []
  | MeterCall.create _ name _ _ :: rest => name :: createdNames rest
  | MeterCall.registerCallback _ :: rest => createdNames rest

/-- How the start-up part of a task ends. A handle whose creation error was
discarded with `_` is `none` when the creation failed. -/
inductive Startup (H ε : Type) where
  | panicked (err : ε)
  | looping (insts : List (Option H))
  | returned
  deriving DecidableEq

/-- Start-up of `counter`. -/
def counter {μ H ε : Type} (meter : Meter μ H ε) (st : μ) : Startup H ε × μ :=
  let r := meter.create Kind.syncInt64Counter "some.prefix.counter" "1" "TODO" st
  (Startup.looping [r.1.toOption], r.2)

/-- Start-up of `upDownCounter`. -/
def upDownCounter {μ H ε : Type} (meter : Meter μ H ε) (st : μ) : Startup H ε × μ :=
  let r := meter.create Kind.syncInt64UpDownCounter "some.prefix.up_down_counter" "1" "TODO" st
  (Startup.looping [r.1.toOption], r.2)

/-- Start-up of `histogram`. -/
def histogram {μ H ε : Type} (meter : Meter μ H ε) (st : μ) : Startup H ε × μ :=
  let r := meter.create Kind.syncInt64Histogram "some.prefix.histogram" "microseconds" "TODO" st
  (Startup.looping [r.1.toOption], r.2)

/-- The function `counterObserver`: it returns once the callback is registered. -/
def counterObserver {μ H ε : Type} (meter : Meter μ H ε) (st : μ) : Startup H ε × μ :=
  let r := meter.create Kind.asyncInt64Counter "some.prefix.counter_observer" "1" "TODO" st
  match meter.RegisterCallback [r.1.toOption] r.2 with
  | (some err, st2) => (Startup.panicked err, st2)
  | (none, st2) => (Startup.returned, st2)

/-- The function `upDownCounterObserver`. -/
def upDownCounterObserver {μ H ε : Type} (meter : Meter μ H ε) (st : μ) :
    Startup H ε × μ :=
  match meter.create Kind.asyncInt64UpDownCounter "some.prefix.up_down_counter" "1" "TODO" st with
  | (Except.error err, st1) => (Startup.panicked err, st1)
  | (Except.ok h, st1) =>
    match meter.RegisterCallback [some h] st1 with
    | (some err, st2) => (Startup.panicked err, st2)
    | (none, st2) => (Startup.returned, st2)

/-- The function `gaugeObserver`. -/
def gaugeObserver {μ H ε : Type} (meter : Meter μ H ε) (st : μ) : Startup H ε × μ :=
  let r := meter.create Kind.asyncFloat64Gauge "some.prefix.gauge_observer" "1" "TODO" st
  match meter.RegisterCallback [r.1.toOption] r.2 with
  | (some err, st2) => (Startup.panicked err, st2)
  | (none, st2) => (Startup.returned, st2)

/-- Start-up of `counterWithLabels`. -/
def counterWithLabels {μ H ε : Type} (meter : Meter μ H ε) (st : μ) :
    Startup H ε × μ :=
  let r := meter.create Kind.syncInt64Counter "some.prefix.cache" "" "Cache hits and misses" st
  (Startup.looping [r.1.toOption], r.2)

/-- Start-up of `counterObserverAdvanced`: after the registration it enters the
loop that updates `stats`. -/
def counterObserverAdvanced {μ H ε : Type} (meter : Meter μ H ε) (st : μ) :
    Startup H ε × μ :=
  let r1 := meter.create Kind.asyncInt64Counter "some.prefix.cache_hits" "" "" st
  let r2 := meter.create Kind.asyncInt64Counter "some.prefix.cache_misses" "" "" r1.2
  match meter.RegisterCallback [r1.1.toOption, r2.1.toOption] r2.2 with
  | (some err, st3) => (Startup.panicked err, st3)
  | (none, st3) => (Startup.looping [], st3)

/-- A meter that accepts everything; the handle is the instrument name. -/
def okMeter : Meter Unit String Unit where
  create := fun _ name _ _ st => (Except.ok name, st)
  RegisterCallback := fun _ st => (none, st)

/-- A meter whose instrument creation always fails with `err` and whose callback
registration always succeeds. -/
def failingCreateMeter (err : String) : Meter Unit String String where
  create := fun _ _ _ _ st => (Except.error err, st)
  RegisterCallback := fun _ st => (none, st)

/-- The instrument names a task passes to instrument creation. -/
def namesOf (task : Meter (Unit × List (MeterCall String)) String Unit →
    Unit × List (MeterCall String) → Startup String Unit × (Unit × List (MeterCall String))) :
    List String :=
  createdNames (task okMeter.recording ((), [])).2.2

/-- The instrument names of the whole example, in the order `main` starts the tasks. -/
def instrumentNames : List String :=
  namesOf counter ++ namesOf upDownCounter ++ namesOf histogram ++
  namesOf counterObserver ++ namesOf upDownCounterObserver ++ namesOf gaugeObserver ++
  namesOf counterWithLabels ++ namesOf counterObserverAdvanced

/-! ## `main` of the metrics example: the `go` statements and the declarations -/

/-- A `go f(args)` statement. -/
structure GoCall where
  callee : String
  args : List String
  deriving DecidableEq

/-- The `go` statements of `main`, in source order. -/
def mainGoCalls : List GoCall :=
  [⟨"counter", ["ctx"]⟩, ⟨"upDownCounter", ["ctx"]⟩, ⟨"histogram", ["ctx"]⟩,
   ⟨"counterObserver", ["ctx"]⟩, ⟨"upDownCounterObserver", ["ctx"]⟩,
   ⟨"gaugeObserver", ["ctx"]⟩, ⟨"counterWithLabels", ["ctx"]⟩,
   ⟨"counterObserverAdvanced", []⟩]

/-- The parameter lists of the eight task declarations (`func f(ctx context.Context)`). -/
def declaredParams : List (String × List String) :=
  [("counter", ["ctx"]), ("upDownCounter", ["ctx"]), ("histogram", ["ctx"]),
   ("counterObserver", ["ctx"]), ("upDownCounterObserver", ["ctx"]),
   ("gaugeObserver", ["ctx"]), ("counterWithLabels", ["ctx"]),
   ("counterObserverAdvanced", ["ctx"])]

/-- How many `go` statements of `main` start the function `name`. -/
def startCount (name : String) : Nat :=
  (mainGoCalls.filter (fun c => c.callee = name)).length

/-- Whether a `go` statement passes exactly the parameters its callee declares. -/
def GoCall.wellTyped (c : GoCall) : Bool :=
  match declaredParams.lookup c.callee with
  | some params => c.args = params
  | none => false

/-! ## The go-redis example -/

/-- A redis command. -/
inductive Cmd where
  | set (key : String) (value : String) (expiration : Int)
  | get (key : String)
  deriving DecidableEq

/-- An operation submitted to the redis client: one command or a pipelined batch. -/
inductive RedisOp where
  | cmd (c : Cmd)
  | pipelined (cs : List Cmd)
  deriving DecidableEq

/-- A redis client: each operation returns an error or nil (`none`) and moves
the client/server state `σ`. -/
structure Client (σ ε : Type) where
  exec : RedisOp → σ → Option ε × σ

/-- The same client, also logging every operation it executes. -/
def Client.recording {σ ε : Type} (rdb : Client σ ε) : Client (σ × List RedisOp) ε where
  exec := fun op s =>
    let r := rdb.exec op s.1
    (r.1, (r.2, s.2 ++ [op]))

/-- Operation `rdb.Set(ctx, "foo", "bar", 0)`. -/
def opSet : RedisOp := RedisOp.cmd (Cmd.set "foo" "bar" 0)

/-- Operation `rdb.Get(ctx, "foo")`. -/
def opGet : RedisOp := RedisOp.cmd (Cmd.get "foo")

/-- The batch queued by the function given to `rdb.Pipelined`. -/
def opPipelined : RedisOp := RedisOp.pipelined [Cmd.set "foo" "bar2" 0, Cmd.get "foo"]

/-- The function `redisCommands`. -/
def redisCommands {σ ε : Type} (rdb : Client σ ε) (s : σ) : Option ε × σ :=
  match rdb.exec opSet s with
  | (some err, s1) => (some err, s1)
  | (none, s1) =>
    match rdb.exec opGet s1 with
    | (some err, s2) => (some err, s2)
    | (none, s2) =>
      match rdb.exec opPipelined s2 with
      | (some err, s3) => (some err, s3)
      | (none, s3) => (none, s3)

/-- The process environment: the value of each variable that is set. -/
abbrev Environ := String → Option String

/-- Go `os.Getenv`: the value, or the empty string when the variable is not set. -/
def Getenv (env : Environ) (key : String) : String := (env key).getD ""

/-- The `uptrace.Config` passed to `uptrace.NewClient`. -/
structure Config where
  DSN : String
  deriving DecidableEq

/-- The function `setupUptrace`; `NewClient` is `uptrace.NewClient`. A panic is
`Except.error` with the panic value. -/
def setupUptrace {C : Type} (env : Environ) (NewClient : Config → C) : Except String C :=
  if Getenv env "UPTRACE_DSN" = "" then
    Except.error "UPTRACE_DSN is empty or missing"
  else
    Except.ok (NewClient ⟨""⟩)

/-- What `main` of the go-redis example does, in order. -/
inductive Event (ε : Type) where
  | newRedisClient (addr : String)
  | addHook
  | spanStart (name : String)
  | redis (op : RedisOp)
  | reportError (err : ε)
  | logError (err : ε)
  | logTrace
  | spanEnd
  | rdbClose
  | reportPanic
  | upclientClose
  deriving DecidableEq

/-- Result of running `main`: the panic value if it panicked, the client it set
up, and its events. -/
structure MainResult (C ε : Type) where
  panicked : Option String
  upclient : Option C
  events : List (Event ε)

/-- The function `main` of the go-redis example, deferred calls included. -/
def main {C σ ε : Type} (env : Environ) (NewClient : Config → C) (rdb : Client σ ε)
    (s : σ) : MainResult C ε :=
  match setupUptrace env NewClient with
  | Except.error msg => ⟨some msg, none, []⟩
  | Except.ok upclient =>
    let r := redisCommands rdb.recording (s, [])
    let tail :=
      match r.1 with
      | some err => [Event.reportError err, Event.logError err]
      | none => [Event.logTrace]
    ⟨none, some upclient,
      [Event.newRedisClient "redis-server:6379", Event.addHook,
        Event.spanStart "redis-main-span"] ++ r.2.2.map Event.redis ++ tail ++
      [Event.spanEnd, Event.rdbClose, Event.reportPanic, Event.upclientClose]⟩

/-- The redis operations among the events of a run. -/
def redisOps {ε : Type} : List (Event ε) → List RedisOp
  | [] => []
  | Event.redis op :: rest => op :: redisOps rest
  | _ :: rest => redisOps rest

/-- The loop of `counterObserverAdvanced` alone: its iterations on the given samples. -/
def runIters (samples : List ℚ) (s : ProgState) : ProgState :=
  samples.foldl (fun st x => counterObserverAdvancedIter x st) s

/-- An interleaving of `n` loop iterations that all draw the sample `1/2`. -/
def allHits (n : Nat) : List Step := List.replicate n (Step.iter (1 / 2))

/-! ## Facts about `int64` arithmetic -/

theorem wrapInt64_of_inRange (x : Int) (h1 : -2 ^ 63 ≤ x) (h2 : x < 2 ^ 63) :
    wrapInt64 x = x := by
  unfold wrapInt64; omega

theorem wrapInt64_add_one (x : Int) :
    addInt64 (wrapInt64 x) 1 = wrapInt64 (x + 1) := by
  unfold addInt64 wrapInt64; omega

/-! ## Instrument names (C1) and the tasks `main` starts (C9) -/

/-- C1 (code defect): the names passed to instrument creation are not pairwise
distinct. `upDownCounter` and `upDownCounterObserver` both create
"some.prefix.up_down_counter"; this is the only collision, the other eight
creations use eight further, different names. -/
theorem instrument_names_collide :
    namesOf upDownCounter = ["some.prefix.up_down_counter"] ∧
    namesOf upDownCounterObserver = ["some.prefix.up_down_counter"] ∧
    instrumentNames.length = 9 ∧
    ¬ instrumentNames.Nodup ∧
    (instrumentNames.erase "some.prefix.up_down_counter").Nodup := by
  decide

/-- C9 (code defect): every one of the eight task functions is started by exactly
one `go` statement of `main`, but the statement for `counterObserverAdvanced`
passes no argument although the function declares the parameter `ctx`; the seven
other statements pass `ctx`. -/
theorem main_starts_tasks :
    mainGoCalls.length = 8 ∧
    (∀ d ∈ declaredParams, startCount d.1 = 1) ∧
    mainGoCalls.filter (fun c => !c.wellTyped) = [⟨"counterObserverAdvanced", []⟩] ∧
    declaredParams.lookup "counterObserverAdvanced" = some ["ctx"] := by
  decide

/-! ## Registration errors (C2) -/

/-- An error returned by `RegisterCallback` makes each of the four observer
functions panic with that error. -/
theorem registerCallback_error_panics {μ H ε : Type} (meter : Meter μ H ε) (st : μ) :
    (∀ h st1 err st2, meter.create Kind.asyncInt64Counter "some.prefix.counter_observer"
        "1" "TODO" st = (h, st1) →
      meter.RegisterCallback [h.toOption] st1 = (some err, st2) →
      counterObserver meter st = (Startup.panicked err, st2)) ∧
    (∀ h st1 err st2, meter.create Kind.asyncFloat64Gauge "some.prefix.gauge_observer"
        "1" "TODO" st = (h, st1) →
      meter.RegisterCallback [h.toOption] st1 = (some err, st2) →
      gaugeObserver meter st = (Startup.panicked err, st2)) ∧
    (∀ h st1 err st2, meter.create Kind.asyncInt64UpDownCounter
        "some.prefix.up_down_counter" "1" "TODO" st = (Except.ok h, st1) →
      meter.RegisterCallback [some h] st1 = (some err, st2) →
      upDownCounterObserver meter st = (Startup.panicked err, st2)) ∧
    (∀ err st1, meter.create Kind.asyncInt64UpDownCounter
        "some.prefix.up_down_counter" "1" "TODO" st = (Except.error err, st1) →
      upDownCounterObserver meter st = (Startup.panicked err, st1)) := by
  refine ⟨?_, ?_, ?_, ?_⟩
  · intro h st1 err st2 h1 h2
    simp [counterObserver, h1, h2]
  · intro h st1 err st2 h1 h2
    simp [gaugeObserver, h1, h2]
  · intro h st1 err st2 h1 h2
    simp [upDownCounterObserver, h1, h2]
  · intro err st1 h1
    simp [upDownCounterObserver, h1]

/-- C2 (code defect): an error from instrument creation is not fatal. With a meter
whose creations all fail with `err`, `counterObserver` discards the error,
registers its callback on the missing handle and returns normally, and the
emitters and `counterObserverAdvanced` go on to their loops; only
`upDownCounterObserver` panics with `err`. -/
theorem creation_error_not_fatal (err : String) :
    counterObserver (failingCreateMeter err).recording ((), []) =
      (Startup.returned, ((),
        [MeterCall.create Kind.asyncInt64Counter "some.prefix.counter_observer" "1" "TODO",
         MeterCall.registerCallback [none]])) ∧
    gaugeObserver (failingCreateMeter err) () = (Startup.returned, ()) ∧
    counterObserverAdvanced (failingCreateMeter err) () = (Startup.looping [], ()) ∧
    counter (failingCreateMeter err) () = (Startup.looping [none], ()) ∧
    upDownCounter (failingCreateMeter err) () = (Startup.looping [none], ()) ∧
    histogram (failingCreateMeter err) () = (Startup.looping [none], ()) ∧
    counterWithLabels (failingCreateMeter err) () = (Startup.looping [none], ()) ∧
    upDownCounterObserver (failingCreateMeter err) () = (Startup.panicked err, ()) := by
  refine ⟨rfl, rfl, rfl, rfl, rfl, rfl, rfl, rfl⟩

/-! ## The go-redis example (C3, C4) -/

/-- C3: `redisCommands` runs Set, Get and the pipelined batch in this order; it
returns nil exactly when all three succeed, otherwise the error of the first
failing operation, and the client has then executed nothing after that
operation. When Set fails only Set was executed. -/
theorem redisCommands_first_error {σ ε : Type} (rdb : Client σ ε) (s : σ) :
    let r1 := rdb.exec opSet s
    let r2 := rdb.exec opGet r1.2
    let r3 := rdb.exec opPipelined r2.2
    let out := redisCommands rdb.recording (s, [])
    (out.1 = none ↔ r1.1 = none ∧ r2.1 = none ∧ r3.1 = none) ∧
    (∀ e, r1.1 = some e → out = (some e, (r1.2, [opSet]))) ∧
    (r1.1 = none → ∀ e, r2.1 = some e → out = (some e, (r2.2, [opSet, opGet]))) ∧
    (r1.1 = none → r2.1 = none →
      out = (r3.1, (r3.2, [opSet, opGet, opPipelined]))) := by
  intro r1 r2 r3 out
  rcases h1 : rdb.exec opSet s with ⟨e1, s1⟩
  rcases h2 : rdb.exec opGet s1 with ⟨e2, s2⟩
  rcases h3 : rdb.exec opPipelined s2 with ⟨e3, s3⟩
  have hr1 : r1 = (e1, s1) := h1
  have hr2 : r2 = (e2, s2) := by simp only [r2, hr1, h2]
  have hr3 : r3 = (e3, s3) := by simp only [r3, hr2, h3]
  rw [hr1, hr2, hr3]
  cases e1 <;> cases e2 <;> cases e3 <;>
    simp [out, redisCommands, Client.recording, h1, h2, h3]

/-- C3 on a client whose Set fails with "ERR": the result is that error and only
Set was executed. -/
theorem redisCommands_first_error_witness :
    redisCommands (Client.recording (Client.mk (fun op (st : Unit) =>
      ((if op = opSet then some "ERR" else none : Option String), st)))) ((), []) =
      (some "ERR", ((), [opSet])) :=
  (redisCommands_first_error (Client.mk (fun op (st : Unit) =>
    ((if op = opSet then some "ERR" else none : Option String), st))) ()).2.1 "ERR"
    (by decide)

/-- C4: `setupUptrace` panics exactly when `UPTRACE_DSN` is missing or empty and
otherwise returns the client built by `uptrace.NewClient`; when it panics, `main`
panics with the same value before any event, so no redis operation is issued. -/
theorem setupUptrace_panics_iff {C σ ε : Type} (env : Environ) (NewClient : Config → C)
    (rdb : Client σ ε) (s : σ) :
    ((∃ msg, setupUptrace env NewClient = Except.error msg) ↔
      (env "UPTRACE_DSN" = none ∨ env "UPTRACE_DSN" = some "")) ∧
    (¬ (env "UPTRACE_DSN" = none ∨ env "UPTRACE_DSN" = some "") →
      setupUptrace env NewClient = Except.ok (NewClient ⟨""⟩)) ∧
    ((env "UPTRACE_DSN" = none ∨ env "UPTRACE_DSN" = some "") →
      (main env NewClient rdb s).panicked = some "UPTRACE_DSN is empty or missing" ∧
      (main env NewClient rdb s).events = [] ∧
      redisOps (main env NewClient rdb s).events = []) := by
  have key : Getenv env "UPTRACE_DSN" = "" ↔
      (env "UPTRACE_DSN" = none ∨ env "UPTRACE_DSN" = some "") := by
    unfold Getenv
    cases h : env "UPTRACE_DSN" <;> simp
  refine ⟨?_, ?_, ?_⟩
  · rw [← key]
    unfold setupUptrace
    by_cases h : Getenv env "UPTRACE_DSN" = "" <;> simp [h]
  · intro h
    rw [← key] at h
    simp [setupUptrace, h]
  · intro h
    rw [← key] at h
    simp [main, setupUptrace, h, redisOps]

/-- C4 on the empty environment: `main` panics and issues no redis operation. -/
theorem setupUptrace_panics_iff_witness :
    ((fun _ => none : Environ) "UPTRACE_DSN" = none ∨
      (fun _ => none : Environ) "UPTRACE_DSN" = some "") ∧
    (main (fun _ => none) (fun c => c)
      (Client.mk (fun _ (st : Unit) => ((none : Option String), st))) ()).panicked =
        some "UPTRACE_DSN is empty or missing" ∧
    redisOps (main (fun _ => none) (fun c => c)
      (Client.mk (fun _ (st : Unit) => ((none : Option String), st))) ()).events = [] :=
  have h := (setupUptrace_panics_iff (fun _ => none) (fun c => c)
    (Client.mk (fun _ (st : Unit) => ((none : Option String), st))) ()).2.2 (Or.inl rfl)
  ⟨Or.inl rfl, h.1, h.2.2⟩

/-- A run of `main` with the DSN set issues the three redis operations when all
succeed. -/
theorem main_with_dsn_runs_redis :
    redisOps (main (fun k => if k = "UPTRACE_DSN" then some "https://key@host/1" else none)
      (fun c => c) (Client.mk (fun _ (st : Unit) => ((none : Option String), st))) ()).events =
      [opSet, opGet, opPipelined] := by
  decide

/-! ## Observer callbacks (C5) -/

/-- C5, as the claim states it, fails, for two callbacks. The callback of
`counterObserver` writes `number`: from the start state it leaves `number = 1`.
The callback of `gaugeObserver` advances the generator of `math/rand`: from the
start state it leaves one draw made, and the loop iteration of
`counterObserverAdvanced` that follows draws `1/2` and counts a hit, where
without the callback it draws `1/10` and counts a miss. -/
theorem callbacks_write_state :
    (World.onVars counterObserverCallback World.start).1.vars.number = 1 ∧
    (World.onVars counterObserverCallback World.start).1.vars ≠ World.start.vars ∧
    World.start.rand.drawn = 0 ∧
    (gaugeObserverCallback World.start).1.rand.drawn = 1 ∧
    (gaugeObserverCallback World.start).1.rand.drawn ≠ World.start.rand.drawn ∧
    (counterObserverAdvancedLoop World.start).vars = ⟨0, 0, 1⟩ ∧
    (counterObserverAdvancedLoop (gaugeObserverCallback World.start).1).vars = ⟨0, 1, 0⟩ := by
  have h1 : (1 / 10 : ℚ) < float64_0_3 := by unfold float64_0_3; norm_num
  have h2 : ¬ ((1 / 2 : ℚ) < float64_0_3) := by unfold float64_0_3; norm_num
  refine ⟨by decide, by decide, rfl, rfl, by decide, ?_, ?_⟩
  · have hv : (counterObserverAdvancedLoop World.start).vars =
        counterObserverAdvancedIter (1 / 10) ProgState.init := rfl
    rw [hv]
    simp only [counterObserverAdvancedIter, h1, if_true]
    decide
  · have hv : (counterObserverAdvancedLoop (gaugeObserverCallback World.start).1).vars =
        counterObserverAdvancedIter (1 / 2) ProgState.init := rfl
    rw [hv]
    simp only [counterObserverAdvancedIter, h2, if_false]
    decide

/-- C5 (amended): in every state (captured variables and generator) the callbacks
of `upDownCounterObserver` and `counterObserverAdvanced` change nothing and
report the goroutine count, respectively `stats.Hits` and `stats.Misses`; the
callback of `gaugeObserver` advances the generator by one draw, changes no
variable and reports the sample drawn; the callback of `counterObserver` adds 1
to `number`, changes nothing else and reports the new `number`. -/
theorem observer_callbacks_frame (w : World) (num : Int) :
    (World.onVars (upDownCounterObserverCallback num) w).1 = w ∧
    (World.onVars (upDownCounterObserverCallback num) w).2 =
      [Measurement.int64 "some.prefix.up_down_counter" (wrapInt64 num) []] ∧
    (World.onVars counterObserverAdvancedCallback w).1 = w ∧
    (World.onVars counterObserverAdvancedCallback w).2 =
      [Measurement.int64 "some.prefix.cache_hits" w.vars.Hits [],
       Measurement.int64 "some.prefix.cache_misses" w.vars.Misses []] ∧
    (gaugeObserverCallback w).1 = ⟨w.vars, ⟨w.rand.samples, w.rand.drawn + 1⟩⟩ ∧
    (gaugeObserverCallback w).2 =
      [Measurement.float64 "some.prefix.gauge_observer" (w.rand.samples w.rand.drawn)] ∧
    (World.onVars counterObserverCallback w).1 =
      ⟨⟨addInt64 w.vars.number 1, w.vars.Hits, w.vars.Misses⟩, w.rand⟩ ∧
    (World.onVars counterObserverCallback w).2 =
      [Measurement.int64 "some.prefix.counter_observer" (addInt64 w.vars.number 1) []] := by
  refine ⟨rfl, rfl, rfl, rfl, rfl, rfl, rfl, rfl⟩

/-! ## The histogram timing (C10) -/

/-- C10: for every `t` with `|t| * 1000 ≤ 2^63 - 1` the duration of `t`
microseconds is `t * 1000` nanoseconds without overflow, `Microseconds()` gives
back `t`, so `histogram` records exactly `t`, a negative value when `t < 0`. -/
theorem histogram_records_sample (t : Int) (h : |t| * 1000 ≤ 2 ^ 63 - 1) :
    histogramDur t = t * 1000 ∧
    Microseconds (histogramDur t) = t ∧
    histogramIter t = [Measurement.int64 "some.prefix.histogram" t []] ∧
    (t < 0 → Microseconds (histogramDur t) < 0) := by
  have habs : -(2 ^ 63 - 1) ≤ t * 1000 ∧ t * 1000 ≤ 2 ^ 63 - 1 := by
    rcases abs_cases t with ⟨h1, _⟩ | ⟨h1, _⟩ <;> rw [h1] at h <;> constructor <;> omega
  have hdur : histogramDur t = t * 1000 := by
    unfold histogramDur mulInt64 Microsecond
    exact wrapInt64_of_inRange _ (by omega) (by omega)
  have hmic : Microseconds (histogramDur t) = t := by
    rw [hdur]
    unfold Microseconds divInt64
    rw [Int.mul_tdiv_cancel t (by decide)]
    exact wrapInt64_of_inRange _ (by omega) (by omega)
  refine ⟨hdur, hmic, ?_, ?_⟩
  · simp [histogramIter, hmic]
  · intro ht
    rw [hmic]
    exact ht

/-- C10 at `t = -7`: the recorded timing is `-7`. -/
theorem histogram_records_sample_witness :
    |(-7 : Int)| * 1000 ≤ 2 ^ 63 - 1 ∧ Microseconds (histogramDur (-7)) = -7 :=
  ⟨by norm_num, (histogram_records_sample (-7) (by norm_num)).2.1⟩

/-! ## Helper facts for the asynchronous counters -/

theorem wrapInt64_idem (x : Int) : wrapInt64 (wrapInt64 x) = wrapInt64 x := by
  unfold wrapInt64; omega

theorem int64Values_append (name : String) (xs ys : List Measurement) :
    int64Values name (xs ++ ys) = int64Values name xs ++ int64Values name ys := by
  induction xs with
  | nil => rfl
  | cons m rest ih =>
    cases m with
    | int64 n v a =>
      by_cases hn : n = name <;> simp [int64Values, hn, ih]
    | float64 n v => simp [int64Values, ih]

theorem counterObserverRun_number (n : Nat) :
    (counterObserverRun n).1.number = wrapInt64 n := by
  induction n with
  | zero => decide
  | succ k ih =>
    simp only [counterObserverRun, counterObserverCallback, ih]
    rw [wrapInt64_add_one]
    push_cast
    rfl

theorem counterObserverCallback_reports (n : Nat) :
    (counterObserverCallback (counterObserverRun n).1).2 =
      [Measurement.int64 "some.prefix.counter_observer" (wrapInt64 (n + 1)) []] := by
  simp only [counterObserverCallback, counterObserverRun_number, wrapInt64_add_one]

theorem counterObserverRun_reports_succ (n : Nat) :
    int64Values "some.prefix.counter_observer" (counterObserverRun (n + 1)).2 =
      int64Values "some.prefix.counter_observer" (counterObserverRun n).2 ++
        [wrapInt64 (n + 1)] := by
  simp only [counterObserverRun, int64Values_append, counterObserverCallback_reports]
  simp [int64Values]

theorem counterObserverRun_reports (n : Nat) (h : n ≤ 2 ^ 63 - 1) :
    int64Values "some.prefix.counter_observer" (counterObserverRun n).2 =
      (List.range n).map (fun (i : Nat) => (i : Int) + 1) := by
  induction n with
  | zero => rfl
  | succ k ih =>
    rw [counterObserverRun_reports_succ, ih (by omega), List.range_succ, List.map_append]
    have hw : wrapInt64 ((k : Int) + 1) = (k : Int) + 1 :=
      wrapInt64_of_inRange _ (by omega) (by omega)
    simp [hw]

theorem hitCount_cons (x : ℚ) (rest : List ℚ) :
    hitCount (x :: rest) = if x < float64_0_3 then hitCount rest else hitCount rest + 1 := by
  unfold hitCount
  by_cases hx : x < float64_0_3
  · simp [List.filter_cons, hx]
  · simp [List.filter_cons, hx, not_lt.mp hx]

theorem missCount_cons (x : ℚ) (rest : List ℚ) :
    missCount (x :: rest) =
      if x < float64_0_3 then missCount rest + 1 else missCount rest := by
  unfold missCount
  by_cases hx : x < float64_0_3
  · simp [List.filter_cons, hx]
  · simp [List.filter_cons, hx]

theorem hitCount_add_missCount (samples : List ℚ) :
    hitCount samples + missCount samples = samples.length := by
  induction samples with
  | nil => rfl
  | cons x rest ih =>
    rw [hitCount_cons, missCount_cons]
    by_cases hx : x < float64_0_3 <;> simp [hx] <;> omega

theorem runSchedule_state (sched : List Step) (s : ProgState) :
    (runSchedule sched s).1 = runIters (samplesOf sched) s := by
  induction sched generalizing s with
  | nil => rfl
  | cons st rest ih =>
    cases st <;> simp [runSchedule, Step.run, samplesOf, runIters, ih, observeHits,
      observeMisses]

theorem runIters_fields (samples : List ℚ) (s : ProgState)
    (hH : wrapInt64 s.Hits = s.Hits) (hM : wrapInt64 s.Misses = s.Misses) :
    (runIters samples s).Hits = wrapInt64 (s.Hits + hitCount samples) ∧
    (runIters samples s).Misses = wrapInt64 (s.Misses + missCount samples) ∧
    (runIters samples s).number = s.number := by
  induction samples generalizing s with
  | nil => simp [runIters, hitCount, missCount, hH, hM]
  | cons x rest ih =>
    have hstep : runIters (x :: rest) s = runIters rest (counterObserverAdvancedIter x s) := rfl
    rw [hstep, hitCount_cons, missCount_cons]
    by_cases hx : x < float64_0_3
    · have hs : counterObserverAdvancedIter x s = ⟨s.number, s.Hits, addInt64 s.Misses 1⟩ := by
        simp [counterObserverAdvancedIter, hx]
      rw [hs]
      obtain ⟨h1, h2, h3⟩ := ih ⟨s.number, s.Hits, addInt64 s.Misses 1⟩ hH
        (wrapInt64_idem _)
      refine ⟨by simpa [hx] using h1, ?_, h3⟩
      rw [h2]
      simp only [hx, if_true]
      unfold addInt64 wrapInt64
      push_cast
      omega
    · have hs : counterObserverAdvancedIter x s = ⟨s.number, addInt64 s.Hits 1, s.Misses⟩ := by
        simp [counterObserverAdvancedIter, hx]
      rw [hs]
      obtain ⟨h1, h2, h3⟩ := ih ⟨s.number, addInt64 s.Hits 1, s.Misses⟩
        (wrapInt64_idem _) hM
      refine ⟨?_, by simpa [hx] using h2, h3⟩
      rw [h1]
      simp only [hx, if_false]
      unfold addInt64 wrapInt64
      push_cast
      omega

theorem wrapInt64_natCast (n : Nat) (h : n < 2 ^ 63) : wrapInt64 (0 + (n : Int)) = n := by
  rw [wrapInt64_of_inRange _ (by omega) (by omega)]
  omega

theorem runSchedule_init_fields (sched : List Step) :
    (runSchedule sched ProgState.init).1.Hits = wrapInt64 (0 + hitCount (samplesOf sched)) ∧
    (runSchedule sched ProgState.init).1.Misses =
      wrapInt64 (0 + missCount (samplesOf sched)) ∧
    (runSchedule sched ProgState.init).1.number = 0 := by
  rw [runSchedule_state]
  exact runIters_fields (samplesOf sched) ProgState.init (by decide) (by decide)

theorem samplesOf_allHits (n : Nat) : samplesOf (allHits n) = List.replicate n (1 / 2) := by
  induction n with
  | zero => rfl
  | succ k ih =>
    have : allHits (k + 1) = Step.iter (1 / 2) :: allHits k := rfl
    rw [this, samplesOf, ih]
    rfl

theorem hitCount_replicate_half (n : Nat) : hitCount (List.replicate n (1 / 2)) = n := by
  induction n with
  | zero => rfl
  | succ k ih =>
    have hx : ¬ ((1 / 2 : ℚ) < float64_0_3) := by unfold float64_0_3; norm_num
    rw [List.replicate_succ, hitCount_cons, if_neg hx, ih]

/-- Values reported for `cache_hits` along an interleaving never decrease while
`Hits` cannot overflow. -/
theorem hits_reports_sorted (sched : List Step) (s : ProgState) (h0 : 0 ≤ s.Hits)
    (hb : s.Hits + (samplesOf sched).length < 2 ^ 63) :
    (∀ v ∈ int64Values "some.prefix.cache_hits" (runSchedule sched s).2, s.Hits ≤ v) ∧
    (int64Values "some.prefix.cache_hits" (runSchedule sched s).2).Pairwise (· ≤ ·) := by
  induction sched generalizing s with
  | nil => simp [runSchedule, int64Values]
  | cons st rest ih =>
    cases st with
    | iter x =>
      simp only [runSchedule, Step.run, List.nil_append]
      simp only [samplesOf, List.length_cons] at hb
      by_cases hx : x < float64_0_3
      · have hs : counterObserverAdvancedIter x s = ⟨s.number, s.Hits, addInt64 s.Misses 1⟩ := by
          simp [counterObserverAdvancedIter, hx]
        rw [hs]
        exact ih ⟨s.number, s.Hits, addInt64 s.Misses 1⟩ h0 (by simp only; omega)
      · have hs : counterObserverAdvancedIter x s = ⟨s.number, addInt64 s.Hits 1, s.Misses⟩ := by
          simp [counterObserverAdvancedIter, hx]
        have hw : addInt64 s.Hits 1 = s.Hits + 1 :=
          wrapInt64_of_inRange _ (by omega) (by omega)
        rw [hs, hw]
        obtain ⟨h1, h2⟩ := ih ⟨s.number, s.Hits + 1, s.Misses⟩ (by simp only; omega)
          (by simp only; omega)
        refine ⟨fun v hv => ?_, h2⟩
        have := h1 v hv
        simp only at this
        omega
    | loadHits =>
      simp only [samplesOf] at hb
      obtain ⟨h1, h2⟩ := ih s h0 hb
      simp only [runSchedule, Step.run, observeHits, int64Values_append]
      simp only [int64Values, if_true, List.singleton_append, List.mem_cons,
        List.pairwise_cons]
      refine ⟨?_, h1, h2⟩
      rintro v (rfl | hv)
      · exact le_refl _
      · exact h1 v hv
    | loadMisses =>
      simp only [samplesOf] at hb
      obtain ⟨h1, h2⟩ := ih s h0 hb
      simp only [runSchedule, Step.run, observeMisses, int64Values_append]
      have hne : int64Values "some.prefix.cache_hits"
          [Measurement.int64 "some.prefix.cache_misses" s.Misses []] = [] := by
        simp [int64Values]
      rw [hne, List.nil_append]
      exact ⟨h1, h2⟩

/-- Values reported for `cache_misses` along an interleaving never decrease while
`Misses` cannot overflow. -/
theorem misses_reports_sorted (sched : List Step) (s : ProgState) (h0 : 0 ≤ s.Misses)
    (hb : s.Misses + (samplesOf sched).length < 2 ^ 63) :
    (∀ v ∈ int64Values "some.prefix.cache_misses" (runSchedule sched s).2, s.Misses ≤ v) ∧
    (int64Values "some.prefix.cache_misses" (runSchedule sched s).2).Pairwise (· ≤ ·) := by
  induction sched generalizing s with
  | nil => simp [runSchedule, int64Values]
  | cons st rest ih =>
    cases st with
    | iter x =>
      simp only [runSchedule, Step.run, List.nil_append]
      simp only [samplesOf, List.length_cons] at hb
      by_cases hx : x < float64_0_3
      · have hs : counterObserverAdvancedIter x s = ⟨s.number, s.Hits, addInt64 s.Misses 1⟩ := by
          simp [counterObserverAdvancedIter, hx]
        have hw : addInt64 s.Misses 1 = s.Misses + 1 :=
          wrapInt64_of_inRange _ (by omega) (by omega)
        rw [hs, hw]
        obtain ⟨h1, h2⟩ := ih ⟨s.number, s.Hits, s.Misses + 1⟩ (by simp only; omega)
          (by simp only; omega)
        refine ⟨fun v hv => ?_, h2⟩
        have := h1 v hv
        simp only at this
        omega
      · have hs : counterObserverAdvancedIter x s = ⟨s.number, addInt64 s.Hits 1, s.Misses⟩ := by
          simp [counterObserverAdvancedIter, hx]
        rw [hs]
        exact ih ⟨s.number, addInt64 s.Hits 1, s.Misses⟩ h0 (by simp only; omega)
    | loadHits =>
      simp only [samplesOf] at hb
      obtain ⟨h1, h2⟩ := ih s h0 hb
      simp only [runSchedule, Step.run, observeHits, int64Values_append]
      have hne : int64Values "some.prefix.cache_misses"
          [Measurement.int64 "some.prefix.cache_hits" s.Hits []] = [] := by
        simp [int64Values]
      rw [hne, List.nil_append]
      exact ⟨h1, h2⟩
    | loadMisses =>
      simp only [samplesOf] at hb
      obtain ⟨h1, h2⟩ := ih s h0 hb
      simp only [runSchedule, Step.run, observeMisses, int64Values_append]
      simp only [int64Values, if_true, List.singleton_append, List.mem_cons,
        List.pairwise_cons]
      refine ⟨?_, h1, h2⟩
      rintro v (rfl | hv)
      · exact le_refl _
      · exact h1 v hv

/-- One atomic step leaves `Hits` and `Misses` alone or adds 1 to one of them. -/
theorem step_adds_one (st : Step) (s : ProgState) :
    ((st.run s).1.Hits = s.Hits ∨ (st.run s).1.Hits = addInt64 s.Hits 1) ∧
    ((st.run s).1.Misses = s.Misses ∨ (st.run s).1.Misses = addInt64 s.Misses 1) := by
  cases st with
  | iter x =>
    by_cases hx : x < float64_0_3 <;> simp [Step.run, counterObserverAdvancedIter, hx]
  | loadHits => simp [Step.run, observeHits]
  | loadMisses => simp [Step.run, observeMisses]

/-! ## Values recorded into monotonic counters (C6) -/

/-- C6, as the claim states it, fails: with `2^63 - 1` prior invocations `number`
is the largest `int64`, the increment wraps, and the callback of `counterObserver`
observes `-2^63`. -/
theorem counterObserver_observes_negative :
    (counterObserverCallback (counterObserverRun (2 ^ 63 - 1)).1).2 =
      [Measurement.int64 "some.prefix.counter_observer" (-2 ^ 63) []] ∧
    ¬ ∀ n : Nat, ∀ v ∈ int64Values "some.prefix.counter_observer"
      (counterObserverCallback (counterObserverRun n).1).2, 0 ≤ v := by
  have hv : wrapInt64 (((2 ^ 63 - 1 : Nat) : Int) + 1) = -2 ^ 63 := by decide
  have h1 : (counterObserverCallback (counterObserverRun (2 ^ 63 - 1)).1).2 =
      [Measurement.int64 "some.prefix.counter_observer" (-2 ^ 63) []] := by
    rw [counterObserverCallback_reports, hv]
  refine ⟨h1, fun hall => ?_⟩
  have h2 := hall (2 ^ 63 - 1) (-2 ^ 63) (by rw [h1]; simp [int64Values])
  omega

/-- C6 (amended): `counter` and `counterWithLabels` add exactly 1 in every
iteration; with `n < 2^63 - 1` prior invocations the callback of `counterObserver`
observes `n + 1`, which is not negative; `Hits` and `Misses` start at 0, every
step leaves each of them alone or adds 1 to it, and while fewer than `2^63` loop
iterations have run every value observed for them is not negative. -/
theorem counter_values_nonneg (n : Nat) (sched : List Step) (sample : ℚ)
    (hn : n < 2 ^ 63 - 1) (hs : (samplesOf sched).length < 2 ^ 63) :
    counterIter = [Measurement.int64 "some.prefix.counter" 1 []] ∧
    (∃ attrs, counterWithLabelsIter sample =
      [Measurement.int64 "some.prefix.cache" 1 attrs]) ∧
    (counterObserverCallback (counterObserverRun n).1).2 =
      [Measurement.int64 "some.prefix.counter_observer" ((n : Int) + 1) []] ∧
    (0 : Int) ≤ (n : Int) + 1 ∧
    ProgState.init.Hits = 0 ∧ ProgState.init.Misses = 0 ∧
    (∀ (st : Step) (s : ProgState),
      ((st.run s).1.Hits = s.Hits ∨ (st.run s).1.Hits = addInt64 s.Hits 1) ∧
      ((st.run s).1.Misses = s.Misses ∨ (st.run s).1.Misses = addInt64 s.Misses 1)) ∧
    (∀ v ∈ int64Values "some.prefix.cache_hits" (runSchedule sched ProgState.init).2,
      0 ≤ v) ∧
    (∀ v ∈ int64Values "some.prefix.cache_misses" (runSchedule sched ProgState.init).2,
      0 ≤ v) := by
  have hw : wrapInt64 ((n : Int) + 1) = (n : Int) + 1 :=
    wrapInt64_of_inRange _ (by omega) (by omega)
  have hb : (0 : Int) + ((samplesOf sched).length : Int) < 2 ^ 63 := by omega
  refine ⟨rfl, ?_, ?_, by omega, rfl, rfl, step_adds_one, ?_, ?_⟩
  · by_cases hx : sample < float64_0_3
    · exact ⟨[("type", "hits")], by simp [counterWithLabelsIter, hx]⟩
    · exact ⟨[("type", "misses")], by simp [counterWithLabelsIter, hx]⟩
  · rw [counterObserverCallback_reports, hw]
  · exact (hits_reports_sorted sched ProgState.init (le_refl _) hb).1
  · exact (misses_reports_sorted sched ProgState.init (le_refl _) hb).1

/-- C6 (amended) at 3 prior invocations: the callback observes 4. -/
theorem counter_values_nonneg_witness :
    3 < 2 ^ 63 - 1 ∧
    (counterObserverCallback (counterObserverRun 3).1).2 =
      [Measurement.int64 "some.prefix.counter_observer" 4 []] :=
  ⟨by norm_num,
   (counter_values_nonneg 3 [Step.iter (1 / 2), Step.loadHits, Step.loadMisses] (1 / 10)
    (by norm_num) (by simp [samplesOf])).2.2.1⟩

/-! ## Monotonicity of the asynchronous counters (C7) -/

/-- C7, as the claim states it, fails: invocation number `2^63` of the callback of
`counterObserver` reports `-2^63`, right after invocation `2^63 - 1` reported
`2^63 - 1`; the reports decrease and the last one is not the invocation number. -/
theorem counterObserver_reports_decrease :
    int64Values "some.prefix.counter_observer" (counterObserverRun (2 ^ 63)).2 =
      int64Values "some.prefix.counter_observer" (counterObserverRun (2 ^ 63 - 2)).2 ++
        [2 ^ 63 - 1, -2 ^ 63] ∧
    ¬ (int64Values "some.prefix.counter_observer" (counterObserverRun (2 ^ 63)).2).Pairwise
      (· ≤ ·) := by
  suffices h : int64Values "some.prefix.counter_observer" (counterObserverRun (2 ^ 63)).2 =
      int64Values "some.prefix.counter_observer" (counterObserverRun (2 ^ 63 - 2)).2 ++
        [2 ^ 63 - 1, -2 ^ 63] by
    refine ⟨h, fun hp => ?_⟩
    rw [h, List.pairwise_append] at hp
    have hbad := List.rel_of_pairwise_cons hp.2.1 (List.mem_singleton_self _)
    omega
  have h1 := counterObserverRun_reports_succ (2 ^ 63 - 1)
  have h2 := counterObserverRun_reports_succ (2 ^ 63 - 2)
  have e1 : (2 ^ 63 - 1 + 1 : Nat) = 2 ^ 63 := by norm_num
  have e2 : (2 ^ 63 - 2 + 1 : Nat) = 2 ^ 63 - 1 := by norm_num
  have v1 : wrapInt64 (((2 ^ 63 - 1 : Nat) : Int) + 1) = -2 ^ 63 := by decide
  have v2 : wrapInt64 (((2 ^ 63 - 2 : Nat) : Int) + 1) = 2 ^ 63 - 1 := by decide
  rw [e1, v1] at h1
  rw [e2, v2] at h2
  rw [h1, h2, List.append_assoc]
  rfl

/-- C7 (amended): for `1 ≤ k ≤ 2^63 - 1` invocation number `k` of the callback of
`counterObserver` reports exactly `k`; the first `n ≤ 2^63 - 1` reports are
`1, 2, ..., n`, hence non-decreasing; and along any interleaving of loop
iterations with the two loads of the callback of `counterObserverAdvanced`, with
at most `2^63 - 1` iterations, the values reported for `cache_hits` and for
`cache_misses` are non-decreasing. -/
theorem async_counters_monotone (k n : Nat) (sched : List Step)
    (hk1 : 1 ≤ k) (hk : k ≤ 2 ^ 63 - 1) (hn : n ≤ 2 ^ 63 - 1)
    (hs : (samplesOf sched).length ≤ 2 ^ 63 - 1) :
    (counterObserverCallback (counterObserverRun (k - 1)).1).2 =
      [Measurement.int64 "some.prefix.counter_observer" (k : Int) []] ∧
    int64Values "some.prefix.counter_observer" (counterObserverRun n).2 =
      (List.range n).map (fun (i : Nat) => (i : Int) + 1) ∧
    (int64Values "some.prefix.counter_observer" (counterObserverRun n).2).Pairwise
      (· ≤ ·) ∧
    (int64Values "some.prefix.cache_hits"
      (runSchedule sched ProgState.init).2).Pairwise (· ≤ ·) ∧
    (int64Values "some.prefix.cache_misses"
      (runSchedule sched ProgState.init).2).Pairwise (· ≤ ·) := by
  have hb : (0 : Int) + ((samplesOf sched).length : Int) < 2 ^ 63 := by omega
  have hcast : (((k - 1 : Nat) : Int) + 1) = (k : Int) := by omega
  have hw : wrapInt64 (k : Int) = (k : Int) :=
    wrapInt64_of_inRange _ (by omega) (by omega)
  refine ⟨?_, counterObserverRun_reports n hn, ?_, ?_, ?_⟩
  · rw [counterObserverCallback_reports, hcast, hw]
  · rw [counterObserverRun_reports n hn, List.pairwise_map]
    refine (List.pairwise_lt_range n).imp ?_
    intro a b hab
    omega
  · exact (hits_reports_sorted sched ProgState.init (le_refl _) hb).2
  · exact (misses_reports_sorted sched ProgState.init (le_refl _) hb).2

/-- C7 (amended) at the second invocation, three invocations and a short
interleaving: the second invocation reports 2 and the first three reports are
1, 2, 3. -/
theorem async_counters_monotone_witness :
    1 ≤ 2 ∧ 2 ≤ 2 ^ 63 - 1 ∧ 3 ≤ 2 ^ 63 - 1 ∧
    (counterObserverCallback (counterObserverRun (2 - 1)).1).2 =
      [Measurement.int64 "some.prefix.counter_observer" 2 []] ∧
    int64Values "some.prefix.counter_observer" (counterObserverRun 3).2 = [1, 2, 3] :=
  have h := async_counters_monotone 2 3
    [Step.iter (1 / 2), Step.loadHits, Step.iter (1 / 10), Step.loadMisses]
    (by norm_num) (by norm_num) (by norm_num) (by simp [samplesOf])
  ⟨by norm_num, by norm_num, by norm_num, h.1, h.2.1⟩

/-! ## No lost updates in `counterObserverAdvanced` (C8) -/

/-- C8, as the claim states it, fails: after `2^63` loop iterations that all draw
the sample `1/2` (not below `0.3`), the number of such samples is `2^63` but
`stats.Hits` has wrapped to `-2^63`. -/
theorem hits_wrap_after_many_iterations :
    (samplesOf (allHits (2 ^ 63))).length = 2 ^ 63 ∧
    hitCount (samplesOf (allHits (2 ^ 63))) = 2 ^ 63 ∧
    (runSchedule (allHits (2 ^ 63)) ProgState.init).1.Hits = -2 ^ 63 ∧
    (runSchedule (allHits (2 ^ 63)) ProgState.init).1.Hits ≠
      (hitCount (samplesOf (allHits (2 ^ 63))) : Int) := by
  have hc : hitCount (samplesOf (allHits (2 ^ 63))) = 2 ^ 63 := by
    rw [samplesOf_allHits, hitCount_replicate_half]
  have hv : wrapInt64 (0 + ((2 ^ 63 : Nat) : Int)) = -2 ^ 63 := by decide
  have hH : (runSchedule (allHits (2 ^ 63)) ProgState.init).1.Hits = -2 ^ 63 := by
    rw [(runSchedule_init_fields (allHits (2 ^ 63))).1, hc, hv]
  refine ⟨?_, hc, hH, ?_⟩
  · rw [samplesOf_allHits, List.length_replicate]
  · rw [hH, hc]
    decide

/-- C8 (amended): a loop iteration adds 1 (in `int64`) to `Misses` when the sample
is below `0.3` and to `Hits` otherwise, and changes nothing else; the loads of
the callback change nothing, so the state after any interleaving is the state
after its loop iterations alone; and when the interleaving has `n < 2^63`
iterations, `Misses` is the number of samples below `0.3`, `Hits` the number of
the others, and `Hits + Misses = n`. -/
theorem no_lost_updates (sched : List Step) (sample : ℚ) (s : ProgState)
    (hs : (samplesOf sched).length < 2 ^ 63) :
    (sample < float64_0_3 →
      counterObserverAdvancedIter sample s = ⟨s.number, s.Hits, addInt64 s.Misses 1⟩) ∧
    (¬ sample < float64_0_3 →
      counterObserverAdvancedIter sample s = ⟨s.number, addInt64 s.Hits 1, s.Misses⟩) ∧
    (Step.loadHits.run s).1 = s ∧ (Step.loadMisses.run s).1 = s ∧
    (counterObserverAdvancedCallback s).1 = s ∧
    (runSchedule sched ProgState.init).1 = runIters (samplesOf sched) ProgState.init ∧
    (runSchedule sched ProgState.init).1.Misses = (missCount (samplesOf sched) : Int) ∧
    (runSchedule sched ProgState.init).1.Hits = (hitCount (samplesOf sched) : Int) ∧
    (runSchedule sched ProgState.init).1.Hits + (runSchedule sched ProgState.init).1.Misses =
      ((samplesOf sched).length : Int) ∧
    (runSchedule sched ProgState.init).1.number = 0 := by
  have hsum := hitCount_add_missCount (samplesOf sched)
  obtain ⟨hH, hM, hN⟩ := runSchedule_init_fields sched
  rw [wrapInt64_natCast _ (by omega)] at hH hM
  refine ⟨?_, ?_, rfl, rfl, rfl, runSchedule_state sched _, hM, hH, ?_, hN⟩
  · intro hx
    simp [counterObserverAdvancedIter, hx]
  · intro hx
    simp [counterObserverAdvancedIter, hx]
  · rw [hH, hM]
    omega

/-- C8 (amended) on three iterations interleaved with one callback: one miss, two
hits. -/
theorem no_lost_updates_witness :
    (runSchedule [Step.iter (1 / 2), Step.loadHits, Step.iter (1 / 10), Step.loadMisses,
      Step.iter (3 / 4)] ProgState.init).1.Hits +
    (runSchedule [Step.iter (1 / 2), Step.loadHits, Step.iter (1 / 10), Step.loadMisses,
      Step.iter (3 / 4)] ProgState.init).1.Misses = 3 :=
  (no_lost_updates [Step.iter (1 / 2), Step.loadHits, Step.iter (1 / 10), Step.loadMisses,
    Step.iter (3 / 4)] (1 / 2) ProgState.init (by simp [samplesOf])).2.2.2.2.2.2.2.2.1

end Uptrace
